import Mathlib

/-!
# Verification of the web reader plugin

A shallow embedding of `src/web_reader_plugin.py` (the `WebContentExtractor`
class and the `fetch_webpage` entry point), together with proofs of the
behavioural properties stated in the specification.

HTML documents are modelled as forests of element/text nodes; the external
HTML parser (BeautifulSoup) is modelled by its observable tree API
(`find`, `find_all`, `select_one`, `decompose`, `get_text`), the HTTP client
by an explicit fetch-outcome value, and `urllib.parse` by direct
translations of `urlparse`/`urljoin` restricted to scheme-host-path URLs.
-/

namespace WebReader

mutual

/-- A node of the parsed HTML tree: an element with a tag name, an
attribute association list and children, or a text node. -/
inductive Node where
  | elem (tag : String) (attrs : List (String × String)) (children : NodeList)
  | text (s : String)
deriving Repr

/-- A list of sibling nodes (a separate inductive, so that traversals are
structurally recursive). -/
inductive NodeList where
  | nil
  | cons (head : Node) (tail : NodeList)
deriving Repr

end

/-- Build a `NodeList` from an ordinary list. -/
def NodeList.ofList : List Node → NodeList
  | [] => NodeList.nil
  | n :: ns => NodeList.cons n (NodeList.ofList ns)

/-- An element node with its children given as an ordinary list. -/
def el (tag : String) (attrs : List (String × String)) (children : List Node) : Node :=
  Node.elem tag attrs (NodeList.ofList children)

/-- A parsed document ("soup") is the forest of top-level nodes. -/
abbrev Soup := NodeList

/-- Characters matched by Python `\s` (ASCII range) and `str.strip()`. -/
def isPySpace (c : Char) : Bool :=
  c = ' ' || c = '\t' || c = '\n' || c = '\r' || c = '\x0b' || c = '\x0c'

/-- Python `str.strip()`: remove leading and trailing whitespace. -/
def pyStrip (s : String) : String :=
  String.mk (((s.data.dropWhile isPySpace).reverse.dropWhile isPySpace).reverse)

/-- Python slicing `s[:n]`, over code points. -/
def pyTake (s : String) (n : Nat) : String :=
  String.mk (s.data.take n)

/-- Whether `sub` is an initial run of `l`. -/
def leadingRun : List Char → List Char → Bool
  | [], _ => true
  | _ :: _, [] => false
  | a :: as, b :: bs => a = b && leadingRun as bs

/-- Whether `sub` occurs as a contiguous run in `l`. -/
def containsRun (sub : List Char) : List Char → Bool
  | [] => sub.isEmpty
  | c :: cs => leadingRun sub (c :: cs) || containsRun sub cs

/-- `x in s` for strings (Python substring containment). -/
def strContains (s sub : String) : Bool :=
  containsRun sub.data s.data

/-- Python `s.startswith(pre)`. -/
def pyStartsWith (s pre : String) : Bool :=
  leadingRun pre.data s.data

/-- Python `s.lower()` (ASCII case folding, which covers the URLs and the
filter words involved). -/
def pyLower (s : String) : String :=
  String.mk (s.data.map Char.toLower)

/-- Split a character list at every character satisfying `p` (keeping empty
chunks, like Python `re.split` on single characters). -/
def splitChars (p : Char → Bool) : List Char → List (List Char)
  | [] => [[]]
  | c :: cs =>
    if p c then [] :: splitChars p cs
    else
      match splitChars p cs with
      | [] => [[c]]
      | t :: ts => (c :: t) :: ts

/-- All element nodes of a forest in document (pre-)order: each element
precedes its descendants, which precede its later siblings.  This is the
iteration order of BeautifulSoup `find`, `find_all` and `select_one`. -/
def forestElems : NodeList → List Node
  | NodeList.nil => []
  | NodeList.cons (Node.text _) ns => forestElems ns
  | NodeList.cons (Node.elem t a cs) ns =>
    Node.elem t a cs :: (forestElems cs ++ forestElems ns)

/-- The raw text pieces of a forest, in document order (BeautifulSoup
`strings`). -/
def forestTexts : NodeList → List String
  | NodeList.nil => []
  | NodeList.cons (Node.text s) ns => s :: forestTexts ns
  | NodeList.cons (Node.elem _ _ cs) ns => forestTexts cs ++ forestTexts ns

/-- The tag name of a node (`none` for text nodes). -/
def nodeTag : Node → Option String
  | Node.elem t _ _ => some t
  | Node.text _ => none

/-- Attribute lookup on an attribute association list (first binding wins,
as in a Python dict built left to right BeautifulSoup keeps one value). -/
def lookupAttr (attrs : List (String × String)) (key : String) : Option String :=
  (attrs.find? (fun p => p.1 = key)).map (fun p => p.2)

/-- `tag.get(key)` on a node. -/
def attrOf (n : Node) (key : String) : Option String :=
  match n with
  | Node.elem _ attrs _ => lookupAttr attrs key
  | Node.text _ => none

/-- The singleton forest holding one node. -/
def Node.asForest (n : Node) : NodeList :=
  NodeList.cons n NodeList.nil

/-- `tag.get_text()`: concatenation of all contained text pieces. -/
def getTextPlain (n : Node) : String :=
  String.join (forestTexts n.asForest)

/-- `tag.get_text(separator, strip=True)`: strip each text piece, drop the
blank ones, join with the separator. -/
def getTextSep (sep : String) (n : Node) : String :=
  String.intercalate sep (((forestTexts n.asForest).map pyStrip).filter (fun s => s ≠ ""))

/-- The CSS selector forms the source uses: a tag name (`article`), an
attribute equality (`[role="main"]`), a class (`.content`), an id
(`#content`). -/
inductive Selector where
  | tagSel (name : String)
  | attrSel (key value : String)
  | classSel (name : String)
  | idSel (name : String)
deriving Repr

/-- The whitespace-separated tokens of a `class` attribute value. -/
def classTokens (v : String) : List String :=
  ((splitChars isPySpace v.data).map String.mk).filter (fun s => s ≠ "")

/-- Whether an element node matches a selector (text nodes never match). -/
def matchesSel (sel : Selector) (n : Node) : Bool :=
  match n with
  | Node.text _ => false
  | Node.elem t attrs _ =>
    match sel with
    | Selector.tagSel name => t = name
    | Selector.attrSel key value => lookupAttr attrs key = some value
    | Selector.classSel name =>
      match lookupAttr attrs "class" with
      | some v => (classTokens v).contains name
      | none => false
    | Selector.idSel name => lookupAttr attrs "id" = some name

/-- `soup.select_one(sel)`: the first matching element in document order. -/
def selectOne (soup : Soup) (sel : Selector) : Option Node :=
  (forestElems soup).find? (matchesSel sel)

/-- `soup.find(tag)`: the first element with the given tag name. -/
def findTag (soup : Soup) (tag : String) : Option Node :=
  (forestElems soup).find? (fun n => nodeTag n = some tag)

/-- `soup.find(tag, attrs={key: value})`: the first element with the tag
name whose attribute `key` equals `value`. -/
def findTagAttr (soup : Soup) (tag key value : String) : Option Node :=
  (forestElems soup).find?
    (fun n => nodeTag n = some tag && attrOf n key = some value)

/-- `soup.find_all(tag)`, with an optional requirement that an attribute be
present (`href=True`): all matching elements in document order. -/
def findAllTag (soup : Soup) (tag : String) (requiredAttr : Option String) : List Node :=
  (forestElems soup).filter (fun n =>
    nodeTag n = some tag &&
      match requiredAttr with
      | some key => (attrOf n key).isSome
      | none => true)

/-- `tag.decompose()` applied to every element whose tag is in `bad`: the
forest with those elements (and their subtrees) removed. -/
def removeTags (bad : List String) : NodeList → NodeList
  | NodeList.nil => NodeList.nil
  | NodeList.cons (Node.text s) ns => NodeList.cons (Node.text s) (removeTags bad ns)
  | NodeList.cons (Node.elem t a cs) ns =>
    if bad.contains t then removeTags bad ns
    else NodeList.cons (Node.elem t a (removeTags bad cs)) (removeTags bad ns)

/-! ## `urllib.parse` model

`urlparse` and `urljoin` are standard-library collaborators.  They are
modelled here for scheme-host-path URLs (no query/fragment splitting and no
dot-segment normalisation, which the plugin never relies on): a scheme is a
leading alphabetic-then-alphanumeric/`+`/`-`/`.` run followed by `:`, and a
netloc follows `//` up to the next `/`, `?` or `#`. -/

/-- Characters allowed in a URL scheme after the first letter. -/
def isSchemeChar (c : Char) : Bool :=
  c.isAlphanum || c = '+' || c = '-' || c = '.'

/-- Split `u` into scheme and remainder if it starts with `scheme:`. -/
def schemeSplit (u : String) : Option (String × String) :=
  let pre := u.data.takeWhile (fun c => c ≠ ':')
  if pre.length = u.data.length then none
  else
    match pre with
    | [] => none
    | c :: rest =>
      if c.isAlpha && rest.all isSchemeChar then
        some (String.mk pre, String.mk (u.data.drop (pre.length + 1)))
      else none

/-- Python slicing `s[n:]`, over code points. -/
def pyDrop (s : String) (n : Nat) : String :=
  String.mk (s.data.drop n)

/-- The netloc part: everything up to the first `/`, `?` or `#`. -/
def takeNetloc (s : String) : String :=
  String.mk (s.data.takeWhile (fun c => c ≠ '/' && c ≠ '?' && c ≠ '#'))

/-- Result of `urlparse`: the two components the plugin inspects. -/
structure UrlParts where
  scheme : String
  netloc : String
deriving Repr, DecidableEq

/-- `urllib.parse.urlparse`, restricted to the scheme/netloc components. -/
def urlparse (u : String) : UrlParts :=
  match schemeSplit u with
  | some (sch, rest) =>
    if pyStartsWith rest "//" then { scheme := sch, netloc := takeNetloc (pyDrop rest 2) }
    else { scheme := sch, netloc := "" }
  | none =>
    if pyStartsWith u "//" then { scheme := "", netloc := takeNetloc (pyDrop u 2) }
    else { scheme := "", netloc := "" }

/-- `urllib.parse.urlparse` together with its failure mode: CPython's
`urlsplit` raises `ValueError("Invalid IPv6 URL")` when the netloc slice
contains an unbalanced square bracket, as in `http://[abc` or `//[abc`
(the bracketed-content validation some newer CPython versions add on
balanced brackets is not modelled); otherwise parsing succeeds with the
components of `urlparse`. -/
def pyUrlparse (u : String) : Except String UrlParts :=
  let parts := urlparse u
  if (parts.netloc.data.contains '[' && !parts.netloc.data.contains ']')
      || (parts.netloc.data.contains ']' && !parts.netloc.data.contains '[') then
    Except.error "Invalid IPv6 URL"
  else
    Except.ok parts

/-- The path of a URL: what follows the netloc (or the whole remainder when
there is no netloc). -/
def urlPath (u : String) : String :=
  match schemeSplit u with
  | some (_, rest) =>
    if pyStartsWith rest "//" then
      String.mk ((pyDrop rest 2).data.dropWhile (fun c => c ≠ '/'))
    else rest
  | none => u

/-- The directory of a path: up to and including the last `/`, and `/` when
the path has no slash. -/
def pathDir (p : String) : String :=
  let kept := (p.data.reverse.dropWhile (fun c => c ≠ '/')).reverse
  if kept.isEmpty then "/" else String.mk kept

/-- `urllib.parse.urljoin` for the URL shapes the plugin produces: an input
with a scheme is kept as is, `//…` inherits the base scheme, `/…` replaces
the base path, and any other input replaces the last base path segment. -/
def urljoin (base url : String) : String :=
  if url = "" then base
  else
    match schemeSplit url with
    | some _ => url
    | none =>
      let parts := urlparse base
      if pyStartsWith url "//" then parts.scheme ++ ":" ++ url
      else if pyStartsWith url "/" then parts.scheme ++ "://" ++ parts.netloc ++ url
      else parts.scheme ++ "://" ++ parts.netloc ++ pathDir (urlPath base) ++ url

/-! ## `WebContentExtractor` -/

/-- Collapse every whitespace run to a single space (`re.sub(r"\s+", " ")`);
`prevSpace` records whether the previous character belonged to a run. -/
def collapseWs (prevSpace : Bool) : List Char → List Char
  | [] => []
  | c :: cs =>
    if isPySpace c then
      if prevSpace then collapseWs true cs else ' ' :: collapseWs true cs
    else c :: collapseWs false cs

/-- `WebContentExtractor.clean_text`: collapse whitespace runs to single
spaces, then strip both ends. -/
def clean_text (text : String) : String :=
  pyStrip (String.mk (collapseWs false text.data))

/-- The metadata dict built by `extract_metadata`. -/
structure Metadata where
  title : String
  description : String
  keywords : String
  author : String
deriving Repr, DecidableEq

/-- Python `a or b` on optional tag lookups: `None` is falsy. -/
def pyOrTag (a b : Option Node) : Option Node :=
  match a with
  | some n => some n
  | none => b

/-- `tag.get("content", "").strip()` applied to an optional tag, with the
source's `if tag else ""` default. -/
def contentAttrOrEmpty (t : Option Node) : String :=
  match t with
  | some n => pyStrip ((attrOf n "content").getD "")
  | none => ""

/-- `WebContentExtractor.extract_metadata`. -/
def extract_metadata (soup : Soup) : Metadata :=
  { title :=
      match findTag soup "title" with
      | some n => pyStrip (getTextPlain n)
      | none => "无标题"
    description :=
      contentAttrOrEmpty
        (pyOrTag (findTagAttr soup "meta" "name" "description")
          (findTagAttr soup "meta" "property" "og:description"))
    keywords := contentAttrOrEmpty (findTagAttr soup "meta" "name" "keywords")
    author :=
      contentAttrOrEmpty
        (pyOrTag (findTagAttr soup "meta" "name" "author")
          (findTagAttr soup "meta" "property" "article:author")) }

/-- The tags `extract_main_content` decomposes before extracting text. -/
def uselessTags : List String :=
  ["script", "style", "nav", "header", "footer", "aside", "iframe", "noscript"]

/-- The candidate main-content selectors, in the order the source tries
them. -/
def content_selectors : List Selector :=
  [Selector.tagSel "article",
   Selector.attrSel "role" "main",
   Selector.tagSel "main",
   Selector.classSel "article-content",
   Selector.classSel "post-content",
   Selector.classSel "entry-content",
   Selector.idSel "content",
   Selector.classSel "content"]

/-- The `for selector in content_selectors: … if main_content: break` loop:
the first selector with a match wins. -/
def firstSelectorMatch (soup : Soup) : List Selector → Option Node
  | [] => none
  | sel :: rest =>
    match selectOne soup sel with
    | some n => some n
    | none => firstSelectorMatch soup rest

/-- `WebContentExtractor.extract_main_content`: decompose the useless tags,
try the candidate selectors in order, fall back to `body`, and clean the
extracted text (empty when nothing was found). -/
def extract_main_content (soup : Soup) : String :=
  let stripped := removeTags uselessTags soup
  let fromSel := firstSelectorMatch stripped content_selectors
  let main_content := pyOrTag fromSel (findTag stripped "body")
  match main_content with
  | none => ""
  | some n => clean_text (getTextSep "\n" n)

/-- One entry of the list `extract_links` returns
(`{"text": …, "url": …}`). -/
structure Link where
  text : String
  url : String
deriving Repr, DecidableEq

/-- Whether a URL starts with `http://` or `https://`
(`startswith(("http://", "https://"))`). -/
def isHttpUrl (u : String) : Bool :=
  pyStartsWith u "http://" || pyStartsWith u "https://"

/-- The loop body of `extract_links` over the remaining anchor tags, with
the accumulated `links` list and `seen_urls` set. -/
def extract_links_go (base_url : String) (limit : Nat) :
    List Node → List Link → List String → List Link
  | [], links, _ => links
  | a :: rest, links, seen =>
    if limit ≤ links.length then links
    else
      let href := pyStrip ((attrOf a "href").getD "")
      let text := pyStrip (getTextPlain a)
      if href = "" || pyStartsWith href "#" || pyStartsWith href "javascript:" then
        extract_links_go base_url limit rest links seen
      else
        let absolute_url := urljoin base_url href
        if absolute_url ∈ seen then
          extract_links_go base_url limit rest links seen
        else
          let seen := absolute_url :: seen
          if isHttpUrl absolute_url then
            extract_links_go base_url limit rest
              (links ++ [{ text := if text = "" then "无文本" else pyTake text 50,
                           url := absolute_url }]) seen
          else
            extract_links_go base_url limit rest links seen

/-- `WebContentExtractor.extract_links`. -/
def extract_links (soup : Soup) (base_url : String) (limit : Nat := 10) : List Link :=
  extract_links_go base_url limit (findAllTag soup "a" (some "href")) [] []

/-- The substrings whose presence (in the lower-cased URL) excludes an
image. -/
def imageFilterWords : List String := ["icon", "logo", "1x1", "pixel"]

/-- `any(x in absolute_url.lower() for x in [...])`. -/
def isFilteredImage (absolute_url : String) : Bool :=
  imageFilterWords.any (fun x => strContains (pyLower absolute_url) x)

/-- Python `a or b or c` over `tag.get` results: `None` and `""` are both
falsy. -/
def pyOrStr (a b : Option String) : Option String :=
  match a with
  | some s => if s = "" then b else some s
  | none => b

/-- `img_tag.get("src") or img_tag.get("data-src") or
img_tag.get("data-lazy-src")`. -/
def imgSrc (img : Node) : Option String :=
  pyOrStr (attrOf img "src") (pyOrStr (attrOf img "data-src") (attrOf img "data-lazy-src"))

/-- The loop body of `extract_images` over the remaining `img` tags. -/
def extract_images_go (base_url : String) (limit : Nat) :
    List Node → List String → List String → List String
  | [], images, _ => images
  | img :: rest, images, seen =>
    if limit ≤ images.length then images
    else
      match imgSrc img with
      | none => extract_images_go base_url limit rest images seen
      | some src =>
        -- `if not src: continue` also catches an empty string left by the
        -- attribute fallback chain
        if src = "" then extract_images_go base_url limit rest images seen
        else
        let absolute_url := urljoin base_url (pyStrip src)
        if absolute_url ∈ seen ∨ isHttpUrl absolute_url = false then
          extract_images_go base_url limit rest images seen
        else if isFilteredImage absolute_url = true then
          extract_images_go base_url limit rest images seen
        else
          extract_images_go base_url limit rest (images ++ [absolute_url])
            (absolute_url :: seen)

/-- `WebContentExtractor.extract_images`. -/
def extract_images (soup : Soup) (base_url : String) (limit : Nat := 10) : List String :=
  extract_images_go base_url limit (findAllTag soup "img" none) [] []

/-! ## `fetch_webpage` -/

/-- The plugin configuration (`WebReaderConfig`), with the source's
defaults. -/
structure WebReaderConfig where
  DEFAULT_TIMEOUT : Int := 30
  MAX_CONTENT_LENGTH : Nat := 15000
  USER_AGENT : String :=
    "Mozilla/5.0 (Windows NT 10.0; Win64; x64) AppleWebKit/537.36 (KHTML, like Gecko) Chrome/120.0.0.0 Safari/537.36"
  EXTRACT_LINKS : Bool := true
  EXTRACT_IMAGES : Bool := true
deriving Repr

/-- Python `timeout or config.DEFAULT_TIMEOUT`: `None` and `0` are falsy. -/
def pyOrInt (t : Option Int) (d : Int) : Int :=
  match t with
  | some v => if v = 0 then d else v
  | none => d

/-- The outcome of `requests.get` + `raise_for_status` + BeautifulSoup
parsing, as observed by the plugin: either a successful response (status
code, declared and apparent encodings, parsed tree) or one of the exception
classes the plugin catches. -/
inductive FetchOutcome where
  | success (status : Nat) (encoding apparent : Option String) (soup : Soup)
  | timeout
  | connectionError
  | httpError (status : Option Nat)
  | requestException (msg : String)
  | exceptionOther (tyName msg : String)

/-- The encoding fixup of lines 246-249: keep a truthy declared encoding,
otherwise `apparent_encoding or "utf-8"`. -/
def effEncoding (encoding apparent : Option String) : String :=
  match pyOrStr encoding (pyOrStr apparent (some "utf-8")) with
  | some e => e
  | none => "utf-8"

/-- `"=" * 60`. -/
def eqLine : String := String.mk (List.replicate 60 '=')

/-- The truncation notice appended when the main text exceeds the limit. -/
def truncationMark : String := "\n\n... (内容已截断)"

/-- Lines 303-311 of the formatter: the main-content block (the truncated
preview or the no-content placeholder) followed by the total-character-count
line, which always reports the untruncated length. -/
def main_content_parts (main_text : String) (max_length : Nat) : List String :=
  (if main_text ≠ "" then
    [pyTake main_text max_length ++
      (if max_length < main_text.length then truncationMark else "")]
   else ["（未找到主要内容）"])
  ++ ["\n📊 总字数: " ++ toString main_text.length]

/-- `enumerate(xs, i)` driving a per-item formatter. -/
def formatNumbered (f : Nat → α → List String) : Nat → List α → List String
  | _, [] => []
  | i, x :: xs => f i x ++ formatNumbered f (i + 1) xs

/-- The two output lines of one extracted link. -/
def linkLines (i : Nat) (l : Link) : List String :=
  [toString i ++ ". " ++ l.text, "   " ++ l.url]

/-- The output line of one extracted image. -/
def imageLines (i : Nat) (u : String) : List String :=
  [toString i ++ ". " ++ u]

/-- The success path of `fetch_webpage` (lines 254-336): run the extractors
and assemble `output_parts`.  `extract_main_content` decomposes the useless
tags on the shared tree, so the link/image extractors observe the stripped
forest. -/
def format_success (cfg : WebReaderConfig) (url : String) (status : Nat)
    (encoding : String) (soup : Soup) : String :=
  let metadata := extract_metadata soup
  let main_text := extract_main_content soup
  let strippedSoup := removeTags uselessTags soup
  let links := if cfg.EXTRACT_LINKS then extract_links strippedSoup url 10 else []
  let images := if cfg.EXTRACT_IMAGES then extract_images strippedSoup url 5 else []
  let parts :=
    [eqLine, "📄 网页信息", eqLine,
     "🔗 URL: " ++ url,
     "📌 标题: " ++ metadata.title,
     "✅ 状态码: " ++ toString status,
     "🌐 编码: " ++ encoding]
    ++ (if metadata.description ≠ "" then ["📝 描述: " ++ metadata.description] else [])
    ++ (if metadata.author ≠ "" then ["✍️ 作者: " ++ metadata.author] else [])
    ++ (if metadata.keywords ≠ "" then ["🏷️ 关键词: " ++ metadata.keywords] else [])
    ++ ["", eqLine, "📖 主要内容", eqLine]
    ++ main_content_parts main_text cfg.MAX_CONTENT_LENGTH
    ++ (if links ≠ [] then
          ["", eqLine, "🔗 重要链接 (共" ++ toString links.length ++ "个)", eqLine]
          ++ formatNumbered linkLines 1 links
        else [])
    ++ (if images ≠ [] then
          ["", eqLine, "🖼️ 图片资源 (共" ++ toString images.length ++ "个)", eqLine]
          ++ formatNumbered imageLines 1 images
        else [])
  String.intercalate "\n" parts

/-- A single-quote character, for the invalid-URL message. -/
def squote : String := String.mk [Char.ofNat 39]

/-- The timeout error string (line 374); it embeds the effective timeout. -/
def timeoutMsg (t : Int) : String :=
  "❌ 错误：请求超时（" ++ (toString t ++ "秒），目标网站响应过慢")

/-- The connection-failure error string (line 376). -/
def connErrorMsg : String :=
  "❌ 错误：连接失败，请检查网络或目标网站是否可访问"

/-- The HTTP-error string (line 379); it embeds the status code when the
exception carries a response. -/
def httpErrorMsg (status : Option Nat) : String :=
  "❌ 错误：HTTP " ++
    ((match status with | some n => toString n | none => "未知") ++ " - 服务器返回错误")

/-- The generic request-exception error string (line 381). -/
def requestErrorMsg (m : String) : String :=
  "❌ 错误：请求异常 - " ++ m

/-- The catch-all error string (line 383): exception type name and
description. -/
def catchAllMsg (ty m : String) : String :=
  "❌ 错误：" ++ (ty ++ (": " ++ m))

/-- The error string for an invalid URL (line 232). -/
def invalidUrlMsg (url : String) : String :=
  "❌ 错误：无效的URL " ++ squote ++ url ++ squote ++ "，需要包含 http:// 或 https://"

/-- The error string when URL parsing itself raises (line 234); it embeds
the exception's description. -/
def parseFailMsg (e : String) : String :=
  "❌ 错误：URL解析失败 - " ++ e

/-- The check of line 231: `all([parsed.scheme, parsed.netloc])`, i.e. both
components non-empty.  The scheme is not otherwise constrained. -/
def url_valid (url : String) : Bool :=
  (urlparse url).scheme ≠ "" && (urlparse url).netloc ≠ ""

/-- `fetch_webpage`: dependency checks, parameter validation, the
`urlparse` try/except of lines 229-234 (a parse failure yields its own
error string), then the request and the success/exception paths.  The
availability of the two dynamically imported packages and the network
outcome are explicit parameters. -/
def fetch_webpage (cfg : WebReaderConfig) (requestsAvailable bs4Available : Bool)
    (url : String) (timeout : Option Int) (outcome : FetchOutcome) : String :=
  if !requestsAvailable then "❌ 错误：requests包未安装"
  else if !bs4Available then "⚠️ 警告：BeautifulSoup未安装，将使用简化模式"
  else if url = "" then "❌ 错误：URL不能为空"
  else
    match pyUrlparse url with
    | Except.error e => parseFailMsg e
    | Except.ok _ =>
    if !url_valid url then invalidUrlMsg url
    else
    let t := pyOrInt timeout cfg.DEFAULT_TIMEOUT
    match outcome with
    | FetchOutcome.success status encoding apparent soup =>
      format_success cfg url status (effEncoding encoding apparent) soup
    | FetchOutcome.timeout => timeoutMsg t
    | FetchOutcome.connectionError => connErrorMsg
    | FetchOutcome.httpError st => httpErrorMsg st
    | FetchOutcome.requestException m => requestErrorMsg m
    | FetchOutcome.exceptionOther ty m => catchAllMsg ty m

/-! ## Helper lemmas -/

/-- `s[:n]` is the identity when the string is short enough. -/
theorem pyTake_of_length_le (s : String) (n : Nat) (h : s.length ≤ n) :
    pyTake s n = s := by
  show String.mk (s.data.take n) = s
  rw [List.take_of_length_le h]

/-- `s[:n]` has exactly `n` characters when the string is longer. -/
theorem pyTake_length_of_lt (s : String) (n : Nat) (h : n < s.length) :
    (pyTake s n).length = n := by
  show (s.data.take n).length = n
  rw [List.length_take]
  exact min_eq_left (Nat.le_of_lt h)

/-- Two appends with a differing character inside both constant prefixes are
different strings, whatever the suffixes. -/
theorem append_ne_append (p x q y : String) (i : Nat)
    (hip : i < p.data.length) (hiq : i < q.data.length)
    (hne : p.data[i]? ≠ q.data[i]?) : p ++ x ≠ q ++ y := by
  intro he
  apply hne
  have hd : p.data ++ x.data = q.data ++ y.data := by
    rw [← String.data_append, ← String.data_append, he]
  calc p.data[i]? = (p.data ++ x.data)[i]? := (List.getElem?_append_left hip).symm
    _ = (q.data ++ y.data)[i]? := by rw [hd]
    _ = q.data[i]? := List.getElem?_append_left hiq

/-- The `extract_links` loop never grows the list beyond the limit: the
`len(links) >= limit` break is checked before every append. -/
theorem extract_links_go_length (base : String) (limit : Nat) :
    ∀ (anchors : List Node) (links : List Link) (seen : List String),
      links.length ≤ limit →
      (extract_links_go base limit anchors links seen).length ≤ limit := by
  intro anchors
  induction anchors with
  | nil =>
    intro links seen h
    simpa only [extract_links_go] using h
  | cons a rest ih =>
    intro links seen h
    simp only [extract_links_go]
    split_ifs with h1
    · exact h
    all_goals
      first
      | exact ih _ _ h
      | (apply ih
         simp only [List.length_append, List.length_cons, List.length_nil]
         omega)

/-- The `extract_images` loop never grows the list beyond the limit. -/
theorem extract_images_go_length (base : String) (limit : Nat) :
    ∀ (imgs : List Node) (images seen : List String),
      images.length ≤ limit →
      (extract_images_go base limit imgs images seen).length ≤ limit := by
  intro imgs
  induction imgs with
  | nil =>
    intro images seen h
    simpa only [extract_images_go] using h
  | cons img rest ih =>
    intro images seen h
    simp only [extract_images_go]
    split_ifs with h1
    · exact h
    · cases himg : imgSrc img with
      | none => exact ih images seen h
      | some src =>
        dsimp only
        split_ifs
        all_goals
          first
          | exact ih _ _ h
          | (apply ih
             simp only [List.length_append, List.length_cons, List.length_nil]
             omega)

/-- One appending step of the `extract_links` loop keeps the invariant:
after pushing an unseen URL both onto `seen_urls` and (as a link) onto the
list, the collected URLs are still distinct. -/
theorem links_go_append_step (base : String) (limit : Nat) (rest : List Node)
    (links : List Link) (seen : List String) (txt uurl : String)
    (h1 : ∀ l ∈ links, l.url ∈ seen) (h2 : (links.map Link.url).Nodup)
    (hseen : uurl ∉ seen)
    (ih : ∀ (links' : List Link) (seen' : List String),
      (∀ l ∈ links', l.url ∈ seen') → (links'.map Link.url).Nodup →
      ((extract_links_go base limit rest links' seen').map Link.url).Nodup) :
    ((extract_links_go base limit rest (links ++ [{ text := txt, url := uurl }])
        (uurl :: seen)).map Link.url).Nodup := by
  apply ih
  · intro l hl
    rcases List.mem_append.mp hl with hmem | hmem
    · exact List.mem_cons_of_mem _ (h1 l hmem)
    · rw [List.mem_singleton] at hmem
      rw [hmem]
      exact List.mem_cons_self _ _
  · rw [List.map_append, List.nodup_append]
    refine ⟨h2, List.nodup_singleton _, ?_⟩
    intro u hu hv
    simp only [List.map_cons, List.map_nil, List.mem_singleton] at hv
    rcases List.mem_map.mp hu with ⟨l, hl, hlu⟩
    exact hseen (hv ▸ hlu ▸ h1 l hl)

/-- Every URL already collected by the `extract_links` loop is in
`seen_urls`, and the collected URLs are distinct; both survive one loop
step, so the final URL list has no duplicates. -/
theorem extract_links_go_urls_nodup (base : String) (limit : Nat) :
    ∀ (anchors : List Node) (links : List Link) (seen : List String),
      (∀ l ∈ links, l.url ∈ seen) →
      (links.map Link.url).Nodup →
      ((extract_links_go base limit anchors links seen).map Link.url).Nodup := by
  intro anchors
  induction anchors with
  | nil =>
    intro links seen _ h2
    simpa only [extract_links_go] using h2
  | cons a rest ih =>
    intro links seen h1 h2
    simp only [extract_links_go]
    split_ifs with hlim hskip hseen hhttp htext
    · exact h2
    · exact ih links seen h1 h2
    · exact ih links seen h1 h2
    · exact links_go_append_step base limit rest links seen _ _ h1 h2 hseen ih
    · exact links_go_append_step base limit rest links seen _ _ h1 h2 hseen ih
    · exact ih links _ (fun l hl => List.mem_cons_of_mem _ (h1 l hl)) h2

/-- The same invariant for the `extract_images` loop. -/
theorem extract_images_go_nodup (base : String) (limit : Nat) :
    ∀ (imgs : List Node) (images seen : List String),
      (∀ u ∈ images, u ∈ seen) →
      images.Nodup →
      (extract_images_go base limit imgs images seen).Nodup := by
  intro imgs
  induction imgs with
  | nil =>
    intro images seen _ h2
    simpa only [extract_images_go] using h2
  | cons img rest ih =>
    intro images seen h1 h2
    simp only [extract_images_go]
    split_ifs with hlim
    · exact h2
    · cases himg : imgSrc img with
      | none => exact ih images seen h1 h2
      | some src =>
        dsimp only
        split_ifs with hempty hskip hfilt
        · exact ih images seen h1 h2
        · exact ih images seen h1 h2
        · exact ih images seen h1 h2
        · apply ih
          · intro u hu
            rcases List.mem_append.mp hu with hmem | hmem
            · exact List.mem_cons_of_mem _ (h1 u hmem)
            · rw [List.mem_singleton] at hmem
              rw [hmem]
              exact List.mem_cons_self _ _
          · rw [List.nodup_append]
            refine ⟨h2, List.nodup_singleton _, ?_⟩
            intro u hu hv
            rw [List.mem_singleton] at hv
            exact (not_or.mp hskip).1 (hv ▸ h1 u hu)

/-- A page with repeated and interleaved anchor targets and image sources,
exercising first-occurrence ordering. -/
def dupDoc : Soup := NodeList.ofList
  [el "body" []
    [el "a" [("href", "/b")] [Node.text "B first"],
     el "a" [("href", "/a")] [Node.text "A first"],
     el "a" [("href", "/b")] [Node.text "B second"],
     el "a" [("href", "/a")] [Node.text "A second"],
     el "a" [("href", "/c")] [Node.text "C"],
     el "img" [("src", "/i1.png")] [],
     el "img" [("src", "/i2.png")] [],
     el "img" [("src", "/i1.png")] []]]

/-! ## Claim theorems -/

/-- **C1** (code bug).  When the HTML parser dependency is unavailable but
the HTTP client is available, `fetch_webpage` does not proceed in degraded
mode: lines 221-222 return the bare warning string before any fetch, for
every URL, timeout and network outcome, and the simplified-mode branch of
lines 338-371 is unreachable. -/
theorem bs4_missing_returns_warning_only (cfg : WebReaderConfig) (url : String)
    (timeout : Option Int) (outcome : FetchOutcome) :
    fetch_webpage cfg true false url timeout outcome =
      "⚠️ 警告：BeautifulSoup未安装，将使用简化模式" := rfl

/-- **C2**.  For a non-empty extracted main text: when its length is within
`MAX_CONTENT_LENGTH` the report's main-content block is exactly the full
text with nothing appended; when it exceeds the limit the block is exactly
the first `MAX_CONTENT_LENGTH` characters followed by the truncation
marker; and the reported total character count is the untruncated length in
both cases. -/
theorem truncation_spec (t : String) (m : Nat) (ht : t ≠ "") :
    (t.length ≤ m →
      main_content_parts t m = [t, "\n📊 总字数: " ++ toString t.length]) ∧
    (m < t.length →
      main_content_parts t m =
        [pyTake t m ++ truncationMark, "\n📊 总字数: " ++ toString t.length] ∧
      (pyTake t m).length = m) := by
  constructor
  · intro h
    unfold main_content_parts
    rw [if_pos ht, if_neg (not_lt.mpr h), pyTake_of_length_le t m h]
    simp
  · intro h
    refine ⟨?_, pyTake_length_of_lt t m h⟩
    unfold main_content_parts
    rw [if_pos ht, if_pos h]
    rfl

/-- Witness for **C2**: the truncating branch at a concrete input. -/
theorem truncation_spec_witness :
    main_content_parts "abcdef" 3 =
      [pyTake "abcdef" 3 ++ truncationMark,
       "\n📊 总字数: " ++ toString (String.length "abcdef")] ∧
    (pyTake "abcdef" 3).length = 3 :=
  (truncation_spec "abcdef" 3 (by decide)).2 (by decide)

/-- **C3**.  Whatever the document and base URL, the extracted link list
(limit 10, as passed by `fetch_webpage`) has at most 10 entries and the
extracted image list (limit 5) has at most 5. -/
theorem extraction_limits (soup : Soup) (base : String) :
    (extract_links soup base 10).length ≤ 10 ∧
    (extract_images soup base 5).length ≤ 5 :=
  ⟨extract_links_go_length base 10 _ [] [] (by simp),
   extract_images_go_length base 5 _ [] [] (by simp)⟩

/-- **C4**.  In both extracted lists every resolved absolute URL occurs at
most once (for any document and base URL), and on a page with repeated,
interleaved targets the kept entries are the first occurrences, in order of
first appearance: `/b`'s first anchor text wins over its second, and the
repeated image URL is kept once. -/
theorem dedup_by_resolved_url (soup : Soup) (base : String) :
    ((extract_links soup base 10).map Link.url).Nodup ∧
    (extract_images soup base 5).Nodup ∧
    extract_links dupDoc "https://example.com/page" 10 =
      [{ text := "B first", url := "https://example.com/b" },
       { text := "A first", url := "https://example.com/a" },
       { text := "C", url := "https://example.com/c" }] ∧
    extract_images dupDoc "https://example.com/page" 5 =
      ["https://example.com/i1.png", "https://example.com/i2.png"] :=
  ⟨extract_links_go_urls_nodup base 10 _ [] [] (by simp) (by simp),
   extract_images_go_nodup base 5 _ [] [] (by simp) (by simp),
   rfl, rfl⟩

/-- If no candidate selector matches, the selector loop yields nothing. -/
theorem firstSelectorMatch_eq_none (soup : Soup) :
    ∀ sels : List Selector, (∀ sel ∈ sels, selectOne soup sel = none) →
      firstSelectorMatch soup sels = none := by
  intro sels
  induction sels with
  | nil => intro _; rfl
  | cons s rest ih =>
    intro h
    simp only [firstSelectorMatch]
    rw [h s (List.mem_cons_self ..)]
    exact ih (fun sel hs => h sel (List.mem_cons_of_mem _ hs))

/-- A document whose `.content` div precedes an `article` tag in document
order, with different texts. -/
def articleVsContentDoc : Soup := NodeList.ofList
  [el "body" []
    [el "div" [("class", "content")] [Node.text "content div text"],
     el "article" [] [Node.text "article text"]]]

/-- **C5**.  Main-content selection: on a document holding both an
`article` tag and a `.content` div with different texts the main text comes
from the `article` (even though the div comes first); in general, whenever
the `article` selector (the first candidate) matches, its match provides
the text; when no candidate selector matches, the document body provides
it; and when there is no body either, the extracted text is empty. -/
theorem selector_priority_spec :
    extract_main_content articleVsContentDoc = "article text" ∧
    (∀ (soup : Soup) (n : Node),
      selectOne (removeTags uselessTags soup) (Selector.tagSel "article") = some n →
      extract_main_content soup = clean_text (getTextSep "\n" n)) ∧
    (∀ (soup : Soup) (b : Node),
      (∀ sel ∈ content_selectors, selectOne (removeTags uselessTags soup) sel = none) →
      findTag (removeTags uselessTags soup) "body" = some b →
      extract_main_content soup = clean_text (getTextSep "\n" b)) ∧
    (∀ soup : Soup,
      (∀ sel ∈ content_selectors, selectOne (removeTags uselessTags soup) sel = none) →
      findTag (removeTags uselessTags soup) "body" = none →
      extract_main_content soup = "") := by
  refine ⟨rfl, ?_, ?_, ?_⟩
  · intro soup n h
    simp only [extract_main_content, content_selectors, firstSelectorMatch]
    rw [h]
    rfl
  · intro soup b hsel hbody
    simp only [extract_main_content]
    rw [firstSelectorMatch_eq_none _ _ hsel, hbody]
    rfl
  · intro soup hsel hbody
    simp only [extract_main_content]
    rw [firstSelectorMatch_eq_none _ _ hsel, hbody]
    rfl

/-- Witness for **C5**: on the empty document no selector matches, there is
no body, and the extracted main text is empty. -/
theorem selector_priority_spec_witness :
    extract_main_content NodeList.nil = "" :=
  selector_priority_spec.2.2.2 NodeList.nil (fun _ _ => rfl) rfl

/-- **C9**.  A caller-supplied timeout of exactly `0` is falsy in
`timeout or config.DEFAULT_TIMEOUT`, so the call behaves exactly as if no
timeout had been supplied; concretely, the timeout failure message then
reports the configured default (30), not 0. -/
theorem timeout_zero_uses_default :
    (∀ (cfg : WebReaderConfig) (r b : Bool) (url : String) (o : FetchOutcome),
      fetch_webpage cfg r b url (some 0) o = fetch_webpage cfg r b url none o) ∧
    fetch_webpage {} true true "https://example.com" (some 0) FetchOutcome.timeout =
      timeoutMsg 30 := by
  constructor
  · intro cfg r b url o
    unfold fetch_webpage
    simp [pyOrInt]
  · rfl

/-- A string with a constant prefix differs from `q` whenever some index
inside the prefix carries a different character than `q` does. -/
theorem prefix_append_ne (p x q : String) (i : Nat) (hip : i < p.data.length)
    (hne : p.data[i]? ≠ q.data[i]?) : p ++ x ≠ q := by
  intro he
  apply hne
  rw [← he, String.data_append, List.getElem?_append_left hip]

/-- **C6** counterexample.  `ftp://example.com` has a scheme and a host, so
the URL validation accepts it: the call proceeds to the fetch (its result
depends on the network outcome) instead of failing with the invalid-URL
error before fetching, contradicting the claim that non-http(s) schemes are
rejected before the fetch. -/
theorem scheme_not_rejected_counterexample :
    url_valid "ftp://example.com" = true ∧
    fetch_webpage {} true true "ftp://example.com" none FetchOutcome.timeout =
      timeoutMsg 30 ∧
    fetch_webpage {} true true "ftp://example.com" none FetchOutcome.timeout ≠
      invalidUrlMsg "ftp://example.com" :=
  ⟨rfl, rfl, by decide⟩

/-- **C6** as amended.  URL validation fails without any network
dependence in both failure modes: when parsing succeeds but the parsed
scheme or host is empty it returns the invalid-URL error string, and when
parsing itself throws (CPython raises on an unbalanced bracket in the
netloc, e.g. `http://[abc`) it returns the distinct parse-failure message
embedding the exception text; but the check inspects only non-emptiness,
so any URL whose scheme and host are both non-empty — http(s) or not —
passes validation and reaches the request step. -/
theorem url_validation_spec :
    (∀ (url : String) (p : UrlParts), url ≠ "" → pyUrlparse url = Except.ok p →
      url_valid url = false →
      ∀ (cfg : WebReaderConfig) (t : Option Int) (o : FetchOutcome),
        fetch_webpage cfg true true url t o = invalidUrlMsg url) ∧
    (∀ (url e : String), url ≠ "" → pyUrlparse url = Except.error e →
      ∀ (cfg : WebReaderConfig) (t : Option Int) (o : FetchOutcome),
        fetch_webpage cfg true true url t o = parseFailMsg e) ∧
    (∀ url : String, url ≠ "" → pyUrlparse url = Except.ok (urlparse url) →
      url_valid url = true →
      ∀ (cfg : WebReaderConfig) (t : Option Int),
        fetch_webpage cfg true true url t FetchOutcome.timeout =
          timeoutMsg (pyOrInt t cfg.DEFAULT_TIMEOUT)) := by
  refine ⟨?_, ?_, ?_⟩
  · intro url p hne hok hv cfg t o
    simp [fetch_webpage, hne, hok, hv]
  · intro url e hne herr cfg t o
    simp [fetch_webpage, hne, herr]
  · intro url hne hok hv cfg t
    simp [fetch_webpage, hne, hok, hv]

/-- Witness for **C6** (amended): the spec's own test case `not-a-url`
yields the invalid-URL error, and `http://[abc` (where `urlparse` raises
`ValueError("Invalid IPv6 URL")`) yields the parse-failure message, in
both cases whatever the network would have done. -/
theorem url_validation_spec_witness :
    fetch_webpage {} true true "not-a-url" none FetchOutcome.timeout =
      invalidUrlMsg "not-a-url" ∧
    fetch_webpage {} true true "http://[abc" none FetchOutcome.timeout =
      parseFailMsg "Invalid IPv6 URL" :=
  ⟨url_validation_spec.1 "not-a-url" { scheme := "", netloc := "" } (by decide) rfl
     (by decide) {} none FetchOutcome.timeout,
   url_validation_spec.2.1 "http://[abc" "Invalid IPv6 URL" (by decide) rfl
     {} none FetchOutcome.timeout⟩

/-- **C7**.  Every caught failure class yields its own descriptive error
string (the whole embedded operation is a total function, so nothing
propagates): the timeout message embeds the effective timeout value, the
HTTP message the numeric status code, the request-exception and catch-all
messages the underlying description; the four request-layer messages are
pairwise distinct for all parameter values, and all five classes are
distinct at sample values.  The handlers are reached for any URL that
parses and passes validation. -/
theorem error_message_taxonomy (cfg : WebReaderConfig) (url : String)
    (t : Option Int) (hne : url ≠ "")
    (hok : pyUrlparse url = Except.ok (urlparse url))
    (hv : url_valid url = true) :
    fetch_webpage cfg true true url t FetchOutcome.timeout =
      timeoutMsg (pyOrInt t cfg.DEFAULT_TIMEOUT) ∧
    fetch_webpage cfg true true url t FetchOutcome.connectionError = connErrorMsg ∧
    (∀ st, fetch_webpage cfg true true url t (FetchOutcome.httpError st) =
      httpErrorMsg st) ∧
    (∀ m, fetch_webpage cfg true true url t (FetchOutcome.requestException m) =
      requestErrorMsg m) ∧
    (∀ ty m, fetch_webpage cfg true true url t (FetchOutcome.exceptionOther ty m) =
      catchAllMsg ty m) ∧
    (∀ (a : Int) (st : Option Nat) (m : String),
      timeoutMsg a ≠ connErrorMsg ∧ timeoutMsg a ≠ httpErrorMsg st ∧
      timeoutMsg a ≠ requestErrorMsg m ∧ connErrorMsg ≠ httpErrorMsg st ∧
      connErrorMsg ≠ requestErrorMsg m ∧ httpErrorMsg st ≠ requestErrorMsg m) ∧
    [timeoutMsg 30, connErrorMsg, httpErrorMsg (some 404), requestErrorMsg "boom",
      catchAllMsg "ValueError" "boom"].Pairwise (fun s u => s ≠ u) := by
  refine ⟨?_, ?_, ?_, ?_, ?_, ?_, ?_⟩
  · simp [fetch_webpage, hne, hok, hv]
  · simp [fetch_webpage, hne, hok, hv]
  · intro st
    simp [fetch_webpage, hne, hok, hv]
  · intro m
    simp [fetch_webpage, hne, hok, hv]
  · intro ty m
    simp [fetch_webpage, hne, hok, hv]
  · intro a st m
    simp only [timeoutMsg, connErrorMsg, httpErrorMsg, requestErrorMsg]
    refine ⟨?_, ?_, ?_, ?_, ?_, ?_⟩
    · exact prefix_append_ne _ _ _ 5 (by decide) (by decide)
    · exact append_ne_append _ _ _ _ 5 (by decide) (by decide) (by decide)
    · exact append_ne_append _ _ _ _ 7 (by decide) (by decide) (by decide)
    · exact Ne.symm (prefix_append_ne _ _ _ 5 (by decide) (by decide))
    · exact Ne.symm (prefix_append_ne _ _ _ 5 (by decide) (by decide))
    · exact append_ne_append _ _ _ _ 5 (by decide) (by decide) (by decide)
  · decide

/-- Witness for **C7**: the connection-failure message at a concrete
invocation. -/
theorem error_message_taxonomy_witness :
    fetch_webpage {} true true "https://example.com" none
      FetchOutcome.connectionError = connErrorMsg :=
  (error_message_taxonomy {} "https://example.com" none (by decide) rfl
    (by decide)).2.1

/-- Every URL the `extract_images` loop ever appends has passed both the
http(s) check and the icon/logo/1x1/pixel filter. -/
theorem extract_images_go_filter (base : String) (limit : Nat) :
    ∀ (imgs : List Node) (images seen : List String),
      (∀ u ∈ images, isHttpUrl u = true ∧ isFilteredImage u = false) →
      ∀ u ∈ extract_images_go base limit imgs images seen,
        isHttpUrl u = true ∧ isFilteredImage u = false := by
  intro imgs
  induction imgs with
  | nil =>
    intro images seen h1
    simpa only [extract_images_go] using h1
  | cons img rest ih =>
    intro images seen h1
    simp only [extract_images_go]
    split_ifs with hlim
    · exact h1
    · cases himg : imgSrc img with
      | none => exact ih images seen h1
      | some src =>
        dsimp only
        split_ifs with hempty hskip hfilt
        · exact ih images seen h1
        · exact ih images seen h1
        · exact ih images seen h1
        · apply ih
          intro u hu
          rcases List.mem_append.mp hu with hmem | hmem
          · exact h1 u hmem
          · rw [List.mem_singleton] at hmem
            subst hmem
            refine ⟨?_, ?_⟩
            · have hhttp := (not_or.mp hskip).2
              cases hb : isHttpUrl (urljoin base (pyStrip src)) with
              | false => exact absurd hb hhttp
              | true => rfl
            · cases hb : isFilteredImage (urljoin base (pyStrip src)) with
              | false => rfl
              | true => exact absurd hb hfilt

/-- Images exercising the `src`/`data-src`/`data-lazy-src` fallback (an
empty `src` is falsy), relative resolution, the logo filter and the
non-http(s) filter. -/
def imgFallbackDoc : Soup := NodeList.ofList
  [el "body" []
    [el "img" [("src", "/a.png")] [],
     el "img" [("data-src", "/b.png")] [],
     el "img" [("src", ""), ("data-lazy-src", "/c.png")] [],
     el "img" [("src", "https://example.com/logo.png")] [],
     el "img" [("src", "ftp://cdn.example.com/d.png")] [],
     el "img" [] []]]

/-- **C8**.  Every extracted image URL is http(s) and its lower-cased form
contains none of the filter substrings ("icon", "logo", "1x1", "pixel");
on a concrete page the `src` → `data-src` → `data-lazy-src` fallback is
followed, relative sources are resolved against the base URL, and the
logo and non-http images are excluded. -/
theorem image_extraction_spec :
    (∀ (soup : Soup) (base u : String),
      u ∈ extract_images soup base 5 →
        isHttpUrl u = true ∧ isFilteredImage u = false ∧
        ∀ w ∈ imageFilterWords, strContains (pyLower u) w = false) ∧
    extract_images imgFallbackDoc "https://example.com/page" 5 =
      ["https://example.com/a.png", "https://example.com/b.png",
       "https://example.com/c.png"] := by
  constructor
  · intro soup base u hu
    have h := extract_images_go_filter base 5 (findAllTag soup "img" none) [] []
      (by simp) u hu
    refine ⟨h.1, h.2, ?_⟩
    intro w hw
    have hall := h.2
    rw [isFilteredImage, List.any_eq_false] at hall
    have := hall w hw
    cases hb : strContains (pyLower u) w with
    | false => rfl
    | true => exact absurd hb this
  · rfl

/-- Witness for **C8**: the first extracted image of the concrete page
satisfies the filter facts. -/
theorem image_extraction_spec_witness :
    isHttpUrl "https://example.com/a.png" = true ∧
    isFilteredImage "https://example.com/a.png" = false ∧
    ∀ w ∈ imageFilterWords,
      strContains (pyLower "https://example.com/a.png") w = false :=
  image_extraction_spec.1 imgFallbackDoc "https://example.com/page"
    "https://example.com/a.png" (by decide)

/-- **C10**.  When the extracted main text is empty, the main-content block
of the report is the fixed no-content placeholder, neither emitted line
contains the truncation marker, and the reported total character count is
0. -/
theorem empty_main_text_spec (m : Nat) :
    main_content_parts "" m = ["（未找到主要内容）", "\n📊 总字数: 0"] ∧
    strContains "（未找到主要内容）" truncationMark = false ∧
    strContains "\n📊 总字数: 0" truncationMark = false :=
  ⟨rfl, by decide, by decide⟩

end WebReader
